import Mathlib

/-!
Verification of the TMC5160 stepper-motor driver crate (src/lib.rs, src/registers.rs)
against its natural-language specification.

Modelling conventions:
* Machine integers (u8, u32, i32) are modelled as Nat / Int, with explicit masking
  and wrapping where the source wraps.  Rust bit operators map to Nat bit operators;
  Rust operator precedence (shifts bind tighter than bitand) is applied when
  translating, so the source expression value & 0b10 >> 1 becomes value &&& (2 >>> 1).
* f32 / f64 arithmetic is modelled by exact rational arithmetic; the cast expression
  (e as u32) on a float is modelled by truncation toward zero clamped to the u32 range.
* The SPI transport (embedded-hal blocking Transfer) is modelled as a queue of
  pending responses carried in the machine state: each transfer consumes the head of
  the queue, and - per the embedded-hal contract, on which read_io itself relies to
  return data - a successful transfer OVERWRITES the transferred buffer with the
  received bytes (truncated/padded to the buffer length, each byte reduced mod 256).
  An empty queue or an error entry models a failing transfer.
* Chip-select and enable pins are modelled by events appended to a trace, plus the
  commanded chip-select level; cs.set_low().ok() ignores pin errors in the source,
  so chip-select driving never fails in the model, while the enable pin can fail
  (Tmc5160.en_ok = false models a pin whose set_high/set_low returns Err).
* The cached SpiStatus field of the driver struct is represented by the raw status
  byte: SpiStatus::from_bytes / into_bytes (bitfield-generated, not part of src/)
  are mutually inverse reinterpretations of one byte, so the byte is a faithful
  representation of the cached value.
-/

namespace Tmc

/-! ## Register catalog (src/registers.rs) -/

/-- Register addresses of the TMC5160, mirroring the Registers enum.
The variants A1, V1, D1, GLOBALSCALER and IoInputOutput carry the addresses the
enum assigns to A_1, V_1, D_1, GLOBAL_SCALER and IO_INPUT_OUTPUT; lib.rs refers
to them by the former spellings. -/
inductive Registers where
  | GCONF | GSTAT | IFCNT | SLAVECONF | IoInputOutput | X_COMPARE | OTP_PROG | OTP_READ
  | FACTORY_CONF | SHORT_CONF | DRV_CONF | GLOBALSCALER | OFFSET_READ
  | IHOLD_IRUN | TPOWERDOWN | TSTEP | TPWMTHRS | TCOOLTHRS | THIGH
  | RAMPMODE | XACTUAL | VACTUAL | VSTART | A1 | V1 | AMAX | VMAX | DMAX | D1
  | VSTOP | TZEROWAIT | XTARGET
  | VDCMIN | SW_MODE | RAMP_STAT | XLATCH
  | ENCMODE | X_ENC | ENC_CONST | ENC_STATUS | ENC_LATCH | ENC_DEVIATION
  | MSLUT_0_7 | MSLUTSEL | MSLUTSTART | MSCNT | MSCURACT | CHOPCONF | COOLCONF
  | DCCTRL | DRV_STATUS | PWMCONF | PWM_SCALE | PWM_AUTO | LOST_STEPS
deriving DecidableEq

/-- The Address trait implementation: the discriminant value of each enum variant. -/
def Registers.addr : Registers → Nat
  | .GCONF => 0x00
  | .GSTAT => 0x01
  | .IFCNT => 0x02
  | .SLAVECONF => 0x03
  | .IoInputOutput => 0x04
  | .X_COMPARE => 0x05
  | .OTP_PROG => 0x06
  | .OTP_READ => 0x07
  | .FACTORY_CONF => 0x08
  | .SHORT_CONF => 0x09
  | .DRV_CONF => 0x0A
  | .GLOBALSCALER => 0x0B
  | .OFFSET_READ => 0x0C
  | .IHOLD_IRUN => 0x10
  | .TPOWERDOWN => 0x11
  | .TSTEP => 0x12
  | .TPWMTHRS => 0x13
  | .TCOOLTHRS => 0x14
  | .THIGH => 0x15
  | .RAMPMODE => 0x20
  | .XACTUAL => 0x21
  | .VACTUAL => 0x22
  | .VSTART => 0x23
  | .A1 => 0x24
  | .V1 => 0x25
  | .AMAX => 0x26
  | .VMAX => 0x27
  | .DMAX => 0x28
  | .D1 => 0x2A
  | .VSTOP => 0x2B
  | .TZEROWAIT => 0x2C
  | .XTARGET => 0x2D
  | .VDCMIN => 0x33
  | .SW_MODE => 0x34
  | .RAMP_STAT => 0x35
  | .XLATCH => 0x36
  | .ENCMODE => 0x38
  | .X_ENC => 0x39
  | .ENC_CONST => 0x3A
  | .ENC_STATUS => 0x3B
  | .ENC_LATCH => 0x3C
  | .ENC_DEVIATION => 0x3D
  | .MSLUT_0_7 => 0x60
  | .MSLUTSEL => 0x68
  | .MSLUTSTART => 0x69
  | .MSCNT => 0x6A
  | .MSCURACT => 0x6B
  | .CHOPCONF => 0x6C
  | .COOLCONF => 0x6D
  | .DCCTRL => 0x6E
  | .DRV_STATUS => 0x6F
  | .PWMCONF => 0x70
  | .PWM_SCALE => 0x71
  | .PWM_AUTO => 0x72
  | .LOST_STEPS => 0x73

/-- Rust b as u32 on a bool. -/
def boolVal (b : Bool) : Nat := if b then 1 else 0

/-- The SPISTATUS field struct of registers.rs. -/
structure SpiStatus where
  status_stop_r : Bool
  status_stop_l : Bool
  position_reached : Bool
  velocity_reached : Bool
  standstill : Bool
  sg2 : Bool
  driver_error : Bool
  reset_flag : Bool
deriving DecidableEq

/-- SpiStatus::from.  Translated literally, keeping the source masks and shifts and
Rust precedence: the driver_error line reads value & 0b10 >> 1 in the source, and
Rust shifts bind tighter than bitand, so it is value &&& (0b10 >>> 1). -/
def SpiStatus.fromVal (value : Nat) : SpiStatus where
  status_stop_r := (value &&& 0b10000000) >>> 7 == 1
  status_stop_l := (value &&& 0b1000000) >>> 6 == 1
  position_reached := (value &&& 0b1000000) >>> 5 == 1
  velocity_reached := (value &&& 0b100000) >>> 4 == 1
  standstill := (value &&& 0b10000) >>> 3 == 1
  sg2 := (value &&& 0b1000) >>> 2 == 1
  driver_error := (value &&& (0b10 >>> 1)) == 1
  reset_flag := (value &&& 0b1) == 1

/-- The CHOPCONF field struct. -/
structure ChopConf where
  toff : Nat
  hstr : Nat
  hend : Nat
  fd3 : Bool
  disfdcc : Bool
  chm : Bool
  tbl : Nat
  vhighfs : Bool
  vhighchm : Bool
  tpfd : Nat
  mres : Nat
  intpol : Bool
  dedge : Bool
  diss2g : Bool
  diss2vs : Bool
deriving DecidableEq

/-- ChopConf::from. -/
def ChopConf.fromVal (val : Nat) : ChopConf where
  toff := val &&& 0b1111
  hstr := (val >>> 4) &&& 0b111
  hend := (val >>> 7) &&& 0b1111
  fd3 := (val >>> 11) &&& 0b1 == 1
  disfdcc := (val >>> 12) &&& 0b1 == 1
  chm := (val >>> 14) &&& 0b1 == 1
  tbl := (val >>> 15) &&& 0b11
  vhighfs := (val >>> 18) &&& 0b1 == 1
  vhighchm := (val >>> 19) &&& 0b1 == 1
  tpfd := (val >>> 20) &&& 0b1111
  mres := (val >>> 24) &&& 0b1111
  intpol := (val >>> 28) &&& 0b1 == 1
  dedge := (val >>> 29) &&& 0b1 == 1
  diss2g := (val >>> 30) &&& 0b1 == 1
  diss2vs := (val >>> 31) &&& 0b1 == 1

/-- ChopConf::to_val.  Note the source ORs disfdcc in at shift 13, while
ChopConf::from reads it at shift 12. -/
def ChopConf.to_val (c : ChopConf) : Nat :=
  c.toff ||| (c.hstr <<< 4) ||| (c.hend <<< 7) ||| (boolVal c.fd3 <<< 11) |||
    (boolVal c.disfdcc <<< 13) ||| (boolVal c.chm <<< 14) ||| (c.tbl <<< 15) |||
    (boolVal c.vhighfs <<< 18) ||| (boolVal c.vhighchm <<< 19) ||| (c.tpfd <<< 20) |||
    (c.mres <<< 24) ||| (boolVal c.intpol <<< 28) ||| (boolVal c.dedge <<< 29) |||
    (boolVal c.diss2g <<< 30) ||| (boolVal c.diss2vs <<< 31)

/-- The COOLCONF field struct. -/
structure CoolConf where
  semin : Nat
  seup : Nat
  semax : Nat
  sedn : Nat
  seimin : Bool
  sgt : Nat
  sfilt : Bool
deriving DecidableEq

/-- CoolConf::from. -/
def CoolConf.fromVal (val : Nat) : CoolConf where
  semin := val &&& 0b1111
  seup := (val >>> 5) &&& 0b11
  semax := (val >>> 8) &&& 0b1111
  sedn := (val >>> 13) &&& 0b11
  seimin := (val >>> 15) &&& 0b1 == 1
  sgt := (val >>> 16) &&& 0b1111111
  sfilt := (val >>> 24) &&& 0b1 == 1

/-- CoolConf::to_val.  Note the source ORs semin in a second time at shift 15
(the line reads val |= (self.semin as u32) << 15) and never encodes seimin. -/
def CoolConf.to_val (c : CoolConf) : Nat :=
  c.semin ||| (c.seup <<< 5) ||| (c.semax <<< 8) ||| (c.sedn <<< 13) |||
    (c.semin <<< 15) ||| (c.sgt <<< 16) ||| (boolVal c.sfilt <<< 24)

/-- The OTP_PROG field struct. -/
structure OtpProg where
  otpbit : Nat
  otpbyte : Nat
  otpmagic : Nat
deriving DecidableEq

/-- OtpProg::from.  Note the otpbyte line reads (val & 0b1100) >> 4 in the source:
the mask keeps bits 2 and 3 and the shift then discards them, so the expression
is constantly zero. -/
def OtpProg.fromVal (val : Nat) : OtpProg where
  otpbit := val &&& 0b11
  otpbyte := (val &&& 0b1100) >>> 4
  otpmagic := (val >>> 8) &&& 0b11111111

/-- OtpProg::to_val. -/
def OtpProg.to_val (o : OtpProg) : Nat :=
  o.otpbit ||| (o.otpbyte <<< 4) ||| (o.otpmagic <<< 8)

/-! ## Transaction engine (src/lib.rs) -/

/-- Error type of the driver: SPI bus error or pin error.  The generic transport
error payload E is irrelevant to every claim and is erased. -/
inductive Error where
  | spi : Error
  | pinError : Error
deriving DecidableEq

/-- Data exchange packet: the status byte received with the address phase and the
32-bit data of the transaction. -/
structure DataPacket where
  status : Nat
  data : Nat
deriving DecidableEq

/-- Observable pin and bus events of a run, in order. -/
inductive Ev where
  | csLow : Ev
  | csHigh : Ev
  | spiSend : List Nat → Ev
  | enSet : Bool → Ev
deriving DecidableEq

/-- The driver-struct fields the modelled operations use.  The config-register
mirror fields (g_conf, chop_conf, ...) are omitted: no modelled operation reads
or writes them.  clock and step_count model _clock and _step_count. -/
structure Tmc5160 where
  v_max : ℚ
  status : Nat
  clock : ℚ
  step_count : ℚ
  en_present : Bool
  en_inverted : Bool
  en_ok : Bool
deriving DecidableEq

deriving instance DecidableEq for Except

/-- Machine state: driver struct, the pending transport responses (head is
consumed by the next SPI transfer), the commanded chip-select level
(true = asserted/low) and the event trace. -/
structure St where
  drv : Tmc5160
  resp : List (Except Unit (List Nat))
  cs : Bool
  trace : List Ev
deriving DecidableEq

/-- u8 truncation and buffer fitting: a successful transfer fills the n-byte
buffer with the received bytes, truncated or zero-padded to length n. -/
def fit (n : Nat) (l : List Nat) : List Nat :=
  ((l.map (· % 256)) ++ List.replicate n 0).take n

/-- u32::to_be_bytes. -/
def toBEBytes (x : Nat) : List Nat :=
  [(x >>> 24) % 256, (x >>> 16) % 256, (x >>> 8) % 256, x % 256]

/-- u32::from_be_bytes (on a 4-byte buffer; other shapes cannot arise). -/
def fromBEBytes : List Nat → Nat
  | [a, b, c, d] => (a <<< 24) ||| (b <<< 16) ||| (c <<< 8) ||| d
  | _ => 0

/-- cs.set_low().ok(): drive chip-select low (asserted), ignoring pin errors. -/
def csLowOp (s : St) : St :=
  { s with cs := true, trace := s.trace ++ [Ev.csLow] }

/-- cs.set_high().ok(): drive chip-select high (deasserted), ignoring pin errors. -/
def csHighOp (s : St) : St :=
  { s with cs := false, trace := s.trace ++ [Ev.csHigh] }

/-- spi.transfer(buffer): clock the buffer out while clocking the next pending
response in.  One pending response is consumed per call; on success the result
is the buffer content after the call (the received bytes, fitted to the buffer
length).  An exhausted queue or an error entry is a failing transfer. -/
def transferOp (sent : List Nat) (s : St) : St × Except Error (List Nat) :=
  ({ s with resp := s.resp.tail, trace := s.trace ++ [Ev.spiSend sent] },
   match s.resp.head? with
   | none => Except.error Error.spi
   | some (Except.error _) => Except.error Error.spi
   | some (Except.ok recv) => Except.ok (fit sent.length recv))

/-- Truncation toward zero of a rational (float-to-integer cast direction). -/
def ratTrunc (q : ℚ) : ℤ :=
  if q < 0 then -⌊-q⌋ else ⌊q⌋

/-- Rust (f : f32) as u32: truncate toward zero, saturating to 0..2^32-1. -/
def ratAsU32 (q : ℚ) : Nat :=
  if q < 0 then 0 else min (2 ^ 32 - 1) ⌊q⌋.toNat

/-- Rust (f : f32) as i32: truncate toward zero, saturating to the i32 range. -/
def ratAsI32 (q : ℚ) : ℤ :=
  max (-(2 ^ 31)) (min (2 ^ 31 - 1) (ratTrunc q))

/-- Wrap an integer into the i32 value range (two's complement). -/
def i32_wrap (z : ℤ) : ℤ :=
  Int.emod (z + 2 ^ 31) (2 ^ 32) - 2 ^ 31

/-- Rust (x : u32) as i32: reinterpret the 32-bit pattern as signed. -/
def u32_as_i32 (x : Nat) : ℤ := i32_wrap x

/-- Rust (z : i32) as u32: reinterpret as unsigned. -/
def i32_as_u32 (z : ℤ) : Nat := (Int.emod z (2 ^ 32)).toNat

/-- Tmc5160::new: v_max 0.0, all-zero status, 12 MHz clock, 256 microsteps,
no enable pin, not inverted. -/
def Tmc5160.new : Tmc5160 where
  v_max := 0
  status := 0
  clock := 12000000
  step_count := 256
  en_present := false
  en_inverted := false
  en_ok := true

/-- Fresh machine state around a new driver, with a given pending-response queue. -/
def initSt (resp : List (Except Unit (List Nat))) : St where
  drv := Tmc5160.new
  resp := resp
  cs := false
  trace := []

/-- fn read_io: assert chip-select, transfer the one-byte address (& 0x7f) frame,
transfer a zeroed 4-byte frame, deassert chip-select, and package the received
status byte and big-endian data.  The two early error returns skip the
cs.set_high() call. -/
def read_io (r : Registers) (s : St) : St × Except Error DataPacket :=
  let t1 := transferOp [r.addr &&& 0x7f] (csLowOp s)
  match t1.2 with
  | Except.error e => (t1.1, Except.error e)
  | Except.ok buffer =>
    let t2 := transferOp [0, 0, 0, 0] t1.1
    match t2.2 with
    | Except.error e => (t2.1, Except.error e)
    | Except.ok ret_val =>
      (csHighOp t2.1,
       Except.ok { status := buffer.headD 0, data := fromBEBytes ret_val })

/-- pub fn read_register: issue read_io twice, discarding the first (dummy)
packet and returning the second. -/
def read_register (r : Registers) (s : St) : St × Except Error DataPacket :=
  let t1 := read_io r s
  match t1.2 with
  | Except.error e => (t1.1, Except.error e)
  | Except.ok _dummy => read_io r t1.1

/-- pub fn write_register: assert chip-select, transfer the one-byte address
(| 0x80) frame, transfer the 4-byte payload buffer (which the transfer
overwrites with the received bytes - the middle component of the result is the
buffer content after the call, returned because the Rust buffer is borrowed
mutably by the caller), deassert chip-select.  The early error returns skip
cs.set_high(). -/
def write_register (r : Registers) (val : List Nat) (s : St) :
    St × List Nat × Except Error DataPacket :=
  let t1 := transferOp [r.addr ||| 0x80] (csLowOp s)
  match t1.2 with
  | Except.error e => (t1.1, val, Except.error e)
  | Except.ok buffer =>
    let t2 := transferOp val t1.1
    match t2.2 with
    | Except.error e => (t2.1, val, Except.error e)
    | Except.ok recv =>
      (csHighOp t2.1, recv,
       Except.ok { status := buffer.headD 0, data := fromBEBytes recv })

/-- Drive the enable pin to a level; fails with PinError when the pin fails. -/
def setEnPin (level_high : Bool) (s : St) : St × Except Error Unit :=
  if s.drv.en_ok then
    ({ s with trace := s.trace ++ [Ev.enSet level_high] }, Except.ok ())
  else (s, Except.error Error.pinError)

/-- pub fn enable: drive the enable pin low (high when inverted) when present. -/
def enable (s : St) : St × Except Error Unit :=
  if s.drv.en_present then
    (if s.drv.en_inverted then setEnPin true s else setEnPin false s)
  else (s, Except.ok ())

/-- pub fn disable: drive the enable pin high (low when inverted) when present. -/
def disable (s : St) : St × Except Error Unit :=
  if s.drv.en_present then
    (if s.drv.en_inverted then setEnPin false s else setEnPin true s)
  else (s, Except.ok ())

/-- pub fn clear_g_stat: write 0b111 to the GCONF register address. -/
def clear_g_stat (s : St) : St × Except Error DataPacket :=
  let w := write_register Registers.GCONF (toBEBytes 0b111) s
  (w.1, w.2.2)

/-- pub fn read_global_scaler: read GLOBALSCALER and project the data. -/
def read_global_scaler (s : St) : St × Except Error Nat :=
  let t := read_register Registers.GLOBALSCALER s
  match t.2 with
  | Except.error e => (t.1, Except.error e)
  | Except.ok packet => (t.1, Except.ok packet.data)

/-- pub fn read_drv_status: read DRV_STATUS, cache the packet status, return the
register data (the Rust function returns DrvStatus::from_bytes of these bytes,
a typed view of the same 32 bits). -/
def read_drv_status (s : St) : St × Except Error Nat :=
  let t := read_register Registers.DRV_STATUS s
  match t.2 with
  | Except.error e => (t.1, Except.error e)
  | Except.ok packet =>
    ({ t.1 with drv := { t.1.drv with status := packet.status } }, Except.ok packet.data)

/-- pub fn read_gstat: read GSTAT, cache the packet status, return the data. -/
def read_gstat (s : St) : St × Except Error Nat :=
  let t := read_register Registers.GSTAT s
  match t.2 with
  | Except.error e => (t.1, Except.error e)
  | Except.ok packet =>
    ({ t.1 with drv := { t.1.drv with status := packet.status } }, Except.ok packet.data)

/-- pub fn read_gconf: read GCONF, cache the packet status, return the data. -/
def read_gconf (s : St) : St × Except Error Nat :=
  let t := read_register Registers.GCONF s
  match t.2 with
  | Except.error e => (t.1, Except.error e)
  | Except.ok packet =>
    ({ t.1 with drv := { t.1.drv with status := packet.status } }, Except.ok packet.data)

/-- pub fn read_ramp_status: read RAMP_STAT, cache the packet status, return the
data. -/
def read_ramp_status (s : St) : St × Except Error Nat :=
  let t := read_register Registers.RAMP_STAT s
  match t.2 with
  | Except.error e => (t.1, Except.error e)
  | Except.ok packet =>
    ({ t.1 with drv := { t.1.drv with status := packet.status } }, Except.ok packet.data)

/-- pub fn set_home: write 0 to XACTUAL, then write the (overwritten) buffer to
XTARGET, caching the final packet status. -/
def set_home (s : St) : St × Except Error DataPacket :=
  let w1 := write_register Registers.XACTUAL (toBEBytes 0) s
  match w1.2.2 with
  | Except.error e => (w1.1, Except.error e)
  | Except.ok _ =>
    let w2 := write_register Registers.XTARGET w1.2.1 w1.1
    match w2.2.2 with
    | Except.error e => (w2.1, Except.error e)
    | Except.ok packet =>
      ({ w2.1 with drv := { w2.1.drv with status := packet.status } }, Except.ok packet)

/-- pub fn stop: disable the motor, write 0 to VSTART, then write the
(overwritten) buffer to VMAX, caching the final packet status. -/
def stop (s : St) : St × Except Error DataPacket :=
  let d := disable s
  match d.2 with
  | Except.error e => (d.1, Except.error e)
  | Except.ok _ =>
    let w1 := write_register Registers.VSTART (toBEBytes 0) d.1
    match w1.2.2 with
    | Except.error e => (w1.1, Except.error e)
    | Except.ok _ =>
      let w2 := write_register Registers.VMAX w1.2.1 w1.1
      match w2.2.2 with
      | Except.error e => (w2.1, Except.error e)
      | Except.ok packet =>
        ({ w2.1 with drv := { w2.1.drv with status := packet.status } }, Except.ok packet)

/-- fn speed_from_hz: speed_hz / (clock / 16777216) * step_count, cast to u32. -/
def speed_from_hz (s : St) (speed_hz : ℚ) : Nat :=
  ratAsU32 (speed_hz / (s.drv.clock / 16777216) * s.drv.step_count)

/-- fn accel_from_hz: accel / (clock * clock) * (512 * 256) * 16777216 *
step_count, cast to u32. -/
def accel_from_hz (s : St) (accel_hz_per_s : ℚ) : Nat :=
  ratAsU32 (accel_hz_per_s / (s.drv.clock * s.drv.clock) * (512 * 256) * 16777216
    * s.drv.step_count)

/-- pub fn set_velocity: store the requested velocity in v_max, convert it via
speed_from_hz, write to VMAX, cache the packet status. -/
def set_velocity (velocity : ℚ) (s : St) : St × Except Error DataPacket :=
  let s0 := { s with drv := { s.drv with v_max := velocity } }
  let v_max := speed_from_hz s0 velocity
  let w := write_register Registers.VMAX (toBEBytes v_max) s0
  match w.2.2 with
  | Except.error e => (w.1, Except.error e)
  | Except.ok packet =>
    ({ w.1 with drv := { w.1.drv with status := packet.status } }, Except.ok packet)

/-- pub fn set_acceleration: convert via accel_from_hz and write the buffer to
AMAX, DMAX, A1 and D1 in that order, aborting at the first failing write; each
write hands the next one the buffer as overwritten by the transfer.  The final
packet status is cached. -/
def set_acceleration (acceleration : ℚ) (s : St) : St × Except Error DataPacket :=
  let a_max := accel_from_hz s acceleration
  let w1 := write_register Registers.AMAX (toBEBytes a_max) s
  match w1.2.2 with
  | Except.error e => (w1.1, Except.error e)
  | Except.ok _ =>
    let w2 := write_register Registers.DMAX w1.2.1 w1.1
    match w2.2.2 with
    | Except.error e => (w2.1, Except.error e)
    | Except.ok _ =>
      let w3 := write_register Registers.A1 w2.2.1 w2.1
      match w3.2.2 with
      | Except.error e => (w3.1, Except.error e)
      | Except.ok _ =>
        let w4 := write_register Registers.D1 w3.2.1 w3.1
        match w4.2.2 with
        | Except.error e => (w4.1, Except.error e)
        | Except.ok packet =>
          ({ w4.1 with drv := { w4.1.drv with status := packet.status } }, Except.ok packet)

/-- pub fn move_to: enable the motor, scale the signed target by step_count
using wrapping i32 arithmetic, write to XTARGET, cache the packet status. -/
def move_to (target_signed : ℤ) (s : St) : St × Except Error DataPacket :=
  let e := enable s
  match e.2 with
  | Except.error err => (e.1, Except.error err)
  | Except.ok _ =>
    let target := i32_as_u32 (i32_wrap (target_signed * ratAsI32 e.1.drv.step_count))
    let w := write_register Registers.XTARGET (toBEBytes target) e.1
    match w.2.2 with
    | Except.error err => (w.1, Except.error err)
    | Except.ok packet =>
      ({ w.1 with drv := { w.1.drv with status := packet.status } }, Except.ok packet)

/-- pub fn get_velocity: read VACTUAL; when bit 23 of the data is set return
(16777216 - data as i32) / step_count, else (data as i32) / step_count -
translated literally, including the 16777216 - raw orientation of the first
branch. -/
def get_velocity (s : St) : St × Except Error ℚ :=
  let t := read_register Registers.VACTUAL s
  match t.2 with
  | Except.error e => (t.1, Except.error e)
  | Except.ok target =>
    (t.1, Except.ok
      (if target.data &&& 0b100000000000000000000000 == 0b100000000000000000000000 then
        ((i32_wrap (16777216 - u32_as_i32 target.data) : ℚ) / t.1.drv.step_count)
      else
        ((u32_as_i32 target.data : ℚ) / t.1.drv.step_count)))

/-! ## Claim C1 and C2 theorems -/

/-- C1: the round-trip claim fails on the code.  At the 32-bit value 0x1000
(only the defined disfdcc bit, read at bit 12 by ChopConf::from, is set; every
bit ChopConf::from ignores is zero) re-encoding yields 0x2000, because
ChopConf::to_val writes disfdcc at bit 13.  At 0x8000 (only the defined seimin
bit, read at bit 15 by CoolConf::from, is set) CoolConf::to_val returns 0,
because it ORs semin rather than seimin at shift 15.  And a field set with
otpbyte = 1 (within its 2-bit width) decodes back with otpbyte = 0, because
OtpProg::from computes (val & 0b1100) >> 4, which is constantly zero. -/
theorem c1_roundtrip_fails :
    ChopConf.to_val (ChopConf.fromVal 0x1000) = 0x2000 ∧
    CoolConf.to_val (CoolConf.fromVal 0x8000) = 0 ∧
    (OtpProg.fromVal (OtpProg.to_val { otpbit := 0, otpbyte := 1, otpmagic := 0 })).otpbyte = 0 := by
  decide

/-- C2: the status-byte decoder does not place the flags at bits 7..0.  Decoding
0b10000001 yields driver_error = true (the source line value & 0b10 >> 1 parses
as value & (0b10 >> 1) = value & 1, i.e. bit 0), while the claim requires all six
middle flags false there; and a byte with only bit 5 set decodes with
position_reached = false, while the claim places position-reached at bit 5. -/
theorem c2_status_decode_fails :
    SpiStatus.fromVal 0b10000001 =
      { status_stop_r := true, status_stop_l := false, position_reached := false,
        velocity_reached := false, standstill := false, sg2 := false,
        driver_error := true, reset_flag := true } ∧
    (SpiStatus.fromVal 0b100000).position_reached = false := by
  decide

/-! ## Evaluation helpers for the rational conversions -/

/-- Characterize the float-to-u32 cast by the two bracketing inequalities. -/
theorem ratAsU32_eq {q : ℚ} {n : ℕ} (h0 : (n : ℚ) ≤ q) (h1 : q < (n : ℚ) + 1)
    (h2 : n ≤ 2 ^ 32 - 1) : ratAsU32 q = n := by
  have hq : ¬ q < 0 := not_lt.mpr (le_trans (by positivity) h0)
  have hf : ⌊q⌋ = (n : ℤ) := by
    rw [Int.floor_eq_iff]
    constructor
    · exact_mod_cast h0
    · exact_mod_cast h1
  rw [ratAsU32, if_neg hq, hf]
  simpa using h2

/-- Acceleration zero converts to the raw value zero, for any clock and
step count. -/
theorem accel_from_hz_zero (s : St) : accel_from_hz s 0 = 0 := by
  simp [accel_from_hz, ratAsU32]

/-! ## Claim C4 to C8 theorems and the C10 counterexample (concrete runs) -/

/-- C4 fails on the code: clear_g_stat addresses GCONF, not GSTAT.  On a
successful run the address byte clocked out is 0x80 = GCONF.addr | 0x80 (with
the all-flags payload bytes [0,0,0,0b111]), while a GSTAT write would clock out
GSTAT.addr | 0x80 = 0x81. -/
theorem c4_clear_g_stat_wrong_register :
    (clear_g_stat (initSt [Except.ok [0], Except.ok [0, 0, 0, 0]])).1.trace =
      [Ev.csLow, Ev.spiSend [0x80], Ev.spiSend [0, 0, 0, 0b111], Ev.csHigh] ∧
    Registers.GSTAT.addr ||| 0x80 = 0x81 := by
  decide

/-- C5 fails on the code: with the actual-velocity register reading 0x00FFFFFF
(bit 23 set) get_velocity returns (16777216 - 16777215) / 256 = 1/256, a
positive value, where the claimed two's-complement decode raw - 2^24 gives
-1/256.  The transport supplies status byte 0 and data bytes for both raw reads
of the VACTUAL register. -/
theorem c5_get_velocity_sign_flipped :
    (get_velocity (initSt [Except.ok [0], Except.ok [0, 0, 0, 0],
        Except.ok [0], Except.ok [0, 0xFF, 0xFF, 0xFF]])).2 = Except.ok (1 / 256 : ℚ) ∧
    (0 : ℚ) < 1 / 256 := by
  constructor
  · have hd : (get_velocity (initSt [Except.ok [0], Except.ok [0, 0, 0, 0],
        Except.ok [0], Except.ok [0, 0xFF, 0xFF, 0xFF]])).2 =
        Except.ok ((i32_wrap (16777216 - u32_as_i32 16777215) : ℚ) / 256) := rfl
    have h1 : i32_wrap (16777216 - u32_as_i32 16777215) = 1 := by decide
    rw [hd, h1]
    simp only [Except.ok.injEq]
    norm_num
  · norm_num

/-- C6 fails on the code: only the first of the four ramp writes carries the
converted value.  spi.transfer overwrites the shared 4-byte buffer with the
received bytes, so with acceleration 0 (converted value bytes [0,0,0,0]) and a
transport answering the first data phase with [1,2,3,4], the DMAX write clocks
out [1,2,3,4].  The abort half of the claim does hold: in the second run the
transport fails at the third write address phase, set_acceleration returns the
SPI error, the AMAX and DMAX writes completed, and no A1 data phase or D1 write
is ever attempted. -/
theorem c6_set_acceleration_not_same_value :
    (set_acceleration 0 (initSt [Except.ok [0], Except.ok [1, 2, 3, 4],
        Except.ok [0], Except.ok [0, 0, 0, 0], Except.ok [0], Except.ok [0, 0, 0, 0],
        Except.ok [0], Except.ok [0, 0, 0, 0]])).1.trace =
      [Ev.csLow, Ev.spiSend [0xA6], Ev.spiSend [0, 0, 0, 0], Ev.csHigh,
       Ev.csLow, Ev.spiSend [0xA8], Ev.spiSend [1, 2, 3, 4], Ev.csHigh,
       Ev.csLow, Ev.spiSend [0xA4], Ev.spiSend [0, 0, 0, 0], Ev.csHigh,
       Ev.csLow, Ev.spiSend [0xAA], Ev.spiSend [0, 0, 0, 0], Ev.csHigh] ∧
    (set_acceleration 0 (initSt [Except.ok [0], Except.ok [0, 0, 0, 0],
        Except.ok [0], Except.ok [0, 0, 0, 0], Except.error ()])).2 =
      Except.error Error.spi ∧
    (set_acceleration 0 (initSt [Except.ok [0], Except.ok [0, 0, 0, 0],
        Except.ok [0], Except.ok [0, 0, 0, 0], Except.error ()])).1.trace =
      [Ev.csLow, Ev.spiSend [0xA6], Ev.spiSend [0, 0, 0, 0], Ev.csHigh,
       Ev.csLow, Ev.spiSend [0xA8], Ev.spiSend [0, 0, 0, 0], Ev.csHigh,
       Ev.csLow, Ev.spiSend [0xA4]] := by
  refine ⟨?_, ?_, ?_⟩ <;>
  · simp only [set_acceleration, accel_from_hz_zero]
    decide

/-- C7 fails on the code: when an SPI transfer fails, read_io and write_register
return through the question-mark operator without reaching cs.set_high(), so the
run ends with chip-select still asserted (cs = true in the final state, and the
trace holds a csLow with no matching csHigh). -/
theorem c7_cs_not_deasserted_on_error :
    ((read_io Registers.GCONF (initSt [Except.error ()])).1.cs = true ∧
     (read_io Registers.GCONF (initSt [Except.error ()])).2 = Except.error Error.spi ∧
     (read_io Registers.GCONF (initSt [Except.error ()])).1.trace =
       [Ev.csLow, Ev.spiSend [0x00]]) ∧
    ((write_register Registers.VMAX [0, 0, 0, 0]
        (initSt [Except.ok [0], Except.error ()])).1.cs = true ∧
     (write_register Registers.VMAX [0, 0, 0, 0]
        (initSt [Except.ok [0], Except.error ()])).2.2 = Except.error Error.spi) := by
  refine ⟨⟨by decide, by decide, by decide⟩, by decide, by decide⟩

/-- C8 fails on the code: stop does disable first (here no enable pin is
configured, so disabling is a successful no-op) and writes zero to VSTART, but
the VMAX write clocks out the bytes the transport returned during the VSTART
data phase - [1,2,3,4] in this run - because spi.transfer overwrites the shared
buffer; the claim requires zero. -/
theorem c8_stop_vmax_not_zero :
    (stop (initSt [Except.ok [0], Except.ok [1, 2, 3, 4],
        Except.ok [0], Except.ok [0, 0, 0, 0]])).1.trace =
      [Ev.csLow, Ev.spiSend [0xA3], Ev.spiSend [0, 0, 0, 0], Ev.csHigh,
       Ev.csLow, Ev.spiSend [0xA7], Ev.spiSend [1, 2, 3, 4], Ev.csHigh] := by
  decide

/-- C10 counterexample: read_global_scaler performs two bus transactions, both
answered with status byte 5, yet leaves the cached status field at its initial
value 0 - the source never assigns self.status there, so the cache does not
equal the status byte of the most recent transaction. -/
theorem c10_cache_not_updated :
    (read_global_scaler (initSt [Except.ok [5], Except.ok [0, 0, 0, 0],
        Except.ok [5], Except.ok [0, 0, 0, 0]])).2 = Except.ok 0 ∧
    (read_global_scaler (initSt [Except.ok [5], Except.ok [0, 0, 0, 0],
        Except.ok [5], Except.ok [0, 0, 0, 0]])).1.drv.status = 0 ∧
    (read_global_scaler (initSt [Except.ok [5], Except.ok [0, 0, 0, 0],
        Except.ok [5], Except.ok [0, 0, 0, 0]])).1.drv.status ≠ 5 := by
  refine ⟨by decide, by decide, by decide⟩

/-! ## Claim C3: the public read issues the raw transaction twice -/

/-- C3: for every register and every driver state whose transport answers the
next four transfers (status byte st1 and data A, then status byte st2 and data
B), read_register performs the 5-byte raw transaction exactly twice in
immediate succession - the trace grows by precisely two chip-select-framed
address+data exchanges - and returns the second packet: status st2 and data B,
with the first packet (status st1, data A) discarded. -/
theorem c3_read_register_double_read (s : St) (r : Registers) (st1 st2 : Nat)
    (A B : List Nat) (rest : List (Except Unit (List Nat)))
    (h : s.resp = Except.ok [st1] :: Except.ok A :: Except.ok [st2] :: Except.ok B :: rest) :
    (read_register r s).2 = Except.ok { status := st2 % 256, data := fromBEBytes (fit 4 B) } ∧
    (read_register r s).1.trace = s.trace ++
      [Ev.csLow, Ev.spiSend [r.addr &&& 0x7f], Ev.spiSend [0, 0, 0, 0], Ev.csHigh,
       Ev.csLow, Ev.spiSend [r.addr &&& 0x7f], Ev.spiSend [0, 0, 0, 0], Ev.csHigh] := by
  constructor <;>
  · simp [read_register, read_io, transferOp, csLowOp, csHighOp, h, fit]

/-- Witness for C3 at a concrete transport: the first read answers status 1 and
data [9,9,9,9], the second status 2 and data [1,2,3,4]; the driver returns the
second. -/
theorem c3_witness :
    (read_register Registers.GCONF (initSt [Except.ok [1], Except.ok [9, 9, 9, 9],
        Except.ok [2], Except.ok [1, 2, 3, 4]])).2 =
      Except.ok { status := 2, data := 0x01020304 } := by
  have h := c3_read_register_double_read
    (initSt [Except.ok [1], Except.ok [9, 9, 9, 9], Except.ok [2], Except.ok [1, 2, 3, 4]])
    Registers.GCONF 1 2 [9, 9, 9, 9] [1, 2, 3, 4] [] rfl
  rw [h.1]
  decide

/-! ## Claim C9: velocity conversion and caching -/

/-- C9: for every state whose transport answers the next two transfers,
set_velocity hz stores hz in the cached v_max field and performs one write
transaction to the VMAX address whose payload is the big-endian encoding of
hz / (clock / 2^24) * step_count cast to u32; and with the default 12 MHz clock
and 256 microsteps the conversion of 1000 Hz equals 357913, which is also the
truncation toward zero of the manually computed 1000 / (12000000 / 16777216)
* 256. -/
theorem c9_set_velocity_conversion (s : St) (hz : ℚ) (l1 l2 : List Nat)
    (rest : List (Except Unit (List Nat)))
    (h : s.resp = Except.ok l1 :: Except.ok l2 :: rest) :
    ((set_velocity hz s).1.drv.v_max = hz ∧
     (set_velocity hz s).1.trace = s.trace ++
       [Ev.csLow, Ev.spiSend [Registers.VMAX.addr ||| 0x80],
        Ev.spiSend (toBEBytes (ratAsU32 (hz / (s.drv.clock / 16777216) * s.drv.step_count))),
        Ev.csHigh]) ∧
    ratAsU32 ((1000 : ℚ) / (12000000 / 16777216) * 256) = 357913 ∧
    ratTrunc ((1000 : ℚ) / (12000000 / 16777216) * 256) = 357913 := by
  refine ⟨⟨?_, ?_⟩, ?_, ?_⟩
  · simp [set_velocity, speed_from_hz, write_register, transferOp, csLowOp, csHighOp, h]
  · simp [set_velocity, speed_from_hz, write_register, transferOp, csLowOp, csHighOp, h]
  · exact ratAsU32_eq (by norm_num) (by norm_num) (by norm_num)
  · rw [ratTrunc, if_neg (by norm_num)]
    rw [Int.floor_eq_iff]
    constructor <;> norm_num

/-- Witness for C9: a concrete successful run of set_velocity 1000 on a fresh
driver caches 1000 and clocks out address byte 0xA7 with payload
[0, 5, 118, 25], the big-endian bytes of 357913. -/
theorem c9_witness :
    (set_velocity 1000 (initSt [Except.ok [0], Except.ok [0, 0, 0, 0]])).1.drv.v_max = 1000 ∧
    (set_velocity 1000 (initSt [Except.ok [0], Except.ok [0, 0, 0, 0]])).1.trace =
      [Ev.csLow, Ev.spiSend [0xA7], Ev.spiSend [0, 5, 118, 25], Ev.csHigh] := by
  have h := c9_set_velocity_conversion (initSt [Except.ok [0], Except.ok [0, 0, 0, 0]])
    1000 [0] [0, 0, 0, 0] [] rfl
  refine ⟨h.1.1, ?_⟩
  rw [h.1.2,
    show (initSt [Except.ok [0], Except.ok [0, 0, 0, 0]]).drv.clock = 12000000 from rfl,
    show (initSt [Except.ok [0], Except.ok [0, 0, 0, 0]]).drv.step_count = 256 from rfl,
    h.2.1]
  decide

/-! ## Claim C10: which methods update the cached status -/

/-- transferOp never touches the driver struct. -/
theorem transferOp_drv (sent : List Nat) (s : St) : ((transferOp sent s).1).drv = s.drv := rfl

/-- read_io never touches the driver struct. -/
theorem read_io_drv (r : Registers) (s : St) : ((read_io r s).1).drv = s.drv := by
  simp only [read_io]
  cases h1 : (transferOp [r.addr &&& 0x7f] (csLowOp s)).2 with
  | error e => simp [transferOp, csLowOp]
  | ok buffer =>
    cases h2 : (transferOp [0, 0, 0, 0] (transferOp [r.addr &&& 0x7f] (csLowOp s)).1).2 with
    | error e => simp [transferOp, csLowOp]
    | ok ret_val => simp [transferOp, csLowOp, csHighOp]

/-- read_register never touches the driver struct. -/
theorem read_register_drv (r : Registers) (s : St) : ((read_register r s).1).drv = s.drv := by
  simp only [read_register]
  cases h1 : (read_io r s).2 <;> simp [read_io_drv]

/-- write_register never touches the driver struct. -/
theorem write_register_drv (r : Registers) (val : List Nat) (s : St) :
    ((write_register r val s).1).drv = s.drv := by
  simp only [write_register]
  cases h1 : (transferOp [r.addr ||| 0x80] (csLowOp s)).2 with
  | error e => simp [transferOp, csLowOp]
  | ok buffer =>
    cases h2 : (transferOp val (transferOp [r.addr ||| 0x80] (csLowOp s)).1).2 with
    | error e => simp [transferOp, csLowOp]
    | ok recv => simp [transferOp, csLowOp, csHighOp]

/-- read_global_scaler never touches the driver struct (in particular the
cached status). -/
theorem read_global_scaler_drv (s : St) : ((read_global_scaler s).1).drv = s.drv := by
  simp only [read_global_scaler]
  cases h : (read_register Registers.GLOBALSCALER s).2 <;> simp [read_register_drv]

/-- clear_g_stat never touches the driver struct. -/
theorem clear_g_stat_drv (s : St) : ((clear_g_stat s).1).drv = s.drv := by
  simp only [clear_g_stat]
  exact write_register_drv _ _ _

/-- get_velocity never touches the driver struct. -/
theorem get_velocity_drv (s : St) : ((get_velocity s).1).drv = s.drv := by
  simp only [get_velocity]
  cases h : (read_register Registers.VACTUAL s).2 <;> simp [read_register_drv]

/-- C10, amended: not every bus-touching method refreshes the cached status.
The methods that assign it - read_drv_status, read_gstat, read_gconf,
read_ramp_status, set_home, stop, set_velocity, set_acceleration, move_to -
leave the cache equal to the status byte received in the address phase of
their final bus transaction (conjuncts 1-9, each under the hypothesis that
the transport answers the transfers the method issues, and a working enable
pin for stop and move_to); the raw read_register and write_register and the
remaining wrappers - read_global_scaler, clear_g_stat, get_velocity among the
modelled ones - never touch the cache (conjuncts 10-14). -/
theorem c10_status_cache :
    (∀ (s : St) (l1 l2 l3 l4 : List Nat) (rest : List (Except Unit (List Nat))),
      s.resp = Except.ok l1 :: Except.ok l2 :: Except.ok l3 :: Except.ok l4 :: rest →
      (read_drv_status s).1.drv.status = (fit 1 l3).headD 0) ∧
    (∀ (s : St) (l1 l2 l3 l4 : List Nat) (rest : List (Except Unit (List Nat))),
      s.resp = Except.ok l1 :: Except.ok l2 :: Except.ok l3 :: Except.ok l4 :: rest →
      (read_gstat s).1.drv.status = (fit 1 l3).headD 0) ∧
    (∀ (s : St) (l1 l2 l3 l4 : List Nat) (rest : List (Except Unit (List Nat))),
      s.resp = Except.ok l1 :: Except.ok l2 :: Except.ok l3 :: Except.ok l4 :: rest →
      (read_gconf s).1.drv.status = (fit 1 l3).headD 0) ∧
    (∀ (s : St) (l1 l2 l3 l4 : List Nat) (rest : List (Except Unit (List Nat))),
      s.resp = Except.ok l1 :: Except.ok l2 :: Except.ok l3 :: Except.ok l4 :: rest →
      (read_ramp_status s).1.drv.status = (fit 1 l3).headD 0) ∧
    (∀ (s : St) (l1 l2 l3 l4 : List Nat) (rest : List (Except Unit (List Nat))),
      s.resp = Except.ok l1 :: Except.ok l2 :: Except.ok l3 :: Except.ok l4 :: rest →
      (set_home s).1.drv.status = (fit 1 l3).headD 0) ∧
    (∀ (s : St) (l1 l2 l3 l4 : List Nat) (rest : List (Except Unit (List Nat))),
      s.drv.en_ok = true →
      s.resp = Except.ok l1 :: Except.ok l2 :: Except.ok l3 :: Except.ok l4 :: rest →
      (stop s).1.drv.status = (fit 1 l3).headD 0) ∧
    (∀ (s : St) (hz : ℚ) (l1 l2 : List Nat) (rest : List (Except Unit (List Nat))),
      s.resp = Except.ok l1 :: Except.ok l2 :: rest →
      (set_velocity hz s).1.drv.status = (fit 1 l1).headD 0) ∧
    (∀ (s : St) (a : ℚ) (l1 l2 l3 l4 l5 l6 l7 l8 : List Nat)
        (rest : List (Except Unit (List Nat))),
      s.resp = Except.ok l1 :: Except.ok l2 :: Except.ok l3 :: Except.ok l4 ::
        Except.ok l5 :: Except.ok l6 :: Except.ok l7 :: Except.ok l8 :: rest →
      (set_acceleration a s).1.drv.status = (fit 1 l7).headD 0) ∧
    (∀ (s : St) (tgt : ℤ) (l1 l2 : List Nat) (rest : List (Except Unit (List Nat))),
      s.drv.en_ok = true →
      s.resp = Except.ok l1 :: Except.ok l2 :: rest →
      (move_to tgt s).1.drv.status = (fit 1 l1).headD 0) ∧
    (∀ (r : Registers) (s : St), (read_register r s).1.drv = s.drv) ∧
    (∀ (r : Registers) (val : List Nat) (s : St), (write_register r val s).1.drv = s.drv) ∧
    (∀ s : St, (read_global_scaler s).1.drv.status = s.drv.status) ∧
    (∀ s : St, (clear_g_stat s).1.drv.status = s.drv.status) ∧
    (∀ s : St, (get_velocity s).1.drv.status = s.drv.status) := by
  refine ⟨?_, ?_, ?_, ?_, ?_, ?_, ?_, ?_, ?_,
    read_register_drv, write_register_drv,
    fun s => by rw [read_global_scaler_drv],
    fun s => by rw [clear_g_stat_drv],
    fun s => by rw [get_velocity_drv]⟩
  · intro s l1 l2 l3 l4 rest h
    simp [read_drv_status, read_register, read_io, transferOp, csLowOp, csHighOp, h]
  · intro s l1 l2 l3 l4 rest h
    simp [read_gstat, read_register, read_io, transferOp, csLowOp, csHighOp, h]
  · intro s l1 l2 l3 l4 rest h
    simp [read_gconf, read_register, read_io, transferOp, csLowOp, csHighOp, h]
  · intro s l1 l2 l3 l4 rest h
    simp [read_ramp_status, read_register, read_io, transferOp, csLowOp, csHighOp, h]
  · intro s l1 l2 l3 l4 rest h
    simp [set_home, write_register, transferOp, csLowOp, csHighOp, h]
  · intro s l1 l2 l3 l4 rest hen h
    by_cases hp : s.drv.en_present = true <;> by_cases hi : s.drv.en_inverted = true <;>
      simp [stop, disable, setEnPin, write_register, transferOp, csLowOp, csHighOp,
        h, hen, hp, hi]
  · intro s hz l1 l2 rest h
    simp [set_velocity, write_register, transferOp, csLowOp, csHighOp, h]
  · intro s a l1 l2 l3 l4 l5 l6 l7 l8 rest h
    simp [set_acceleration, write_register, transferOp, csLowOp, csHighOp, h]
  · intro s tgt l1 l2 rest hen h
    by_cases hp : s.drv.en_present = true <;> by_cases hi : s.drv.en_inverted = true <;>
      simp [move_to, enable, setEnPin, write_register, transferOp, csLowOp, csHighOp,
        h, hen, hp, hi]

/-- Witness for C10: concrete instances of two conjuncts - a read_drv_status
run whose final transaction answers status byte 9 leaves the cache at 9, and a
read_global_scaler run leaves the cache at the initial 0. -/
theorem c10_status_cache_witness :
    (read_drv_status (initSt [Except.ok [7], Except.ok [0, 0, 0, 0],
        Except.ok [9], Except.ok [0, 0, 0, 0]])).1.drv.status = 9 ∧
    (read_global_scaler (initSt [Except.ok [7], Except.ok [0, 0, 0, 0],
        Except.ok [9], Except.ok [0, 0, 0, 0]])).1.drv.status = 0 := by
  constructor
  · have h := c10_status_cache.1 (initSt [Except.ok [7], Except.ok [0, 0, 0, 0],
      Except.ok [9], Except.ok [0, 0, 0, 0]]) [7] [0, 0, 0, 0] [9] [0, 0, 0, 0] [] rfl
    rw [h]
    decide
  · have h := c10_status_cache.2.2.2.2.2.2.2.2.2.2.2.1
      (initSt [Except.ok [7], Except.ok [0, 0, 0, 0], Except.ok [9], Except.ok [0, 0, 0, 0]])
    rw [h]
    decide

end Tmc
